import Mathlib

/-!
Verification of the detection-overlay pipeline of `src/app.py`.

The file embeds, as Lean definitions, the pieces of logic the application
runs once per user interaction: the confidence filter (lines 101-104), the
bounding-box drawing loop (lines 107-133), the detection summary (lines
142-159) and the try/except/finally interaction boundary (lines 92-175).
Real numbers from the JSON response are modelled as rationals; the raster
image is modelled as opaque pixel content together with the ordered list of
cv2 drawing calls applied to it; `cv2.getTextSize` is an external function
and is passed in as a parameter.
-/

namespace App

/-- A prediction record as the external detector returns it, once every
field is present: `class`, `confidence`, `x`, `y`, `width`, `height`.
Reals are modelled as rationals. -/
structure Prediction where
  class_label : String
  confidence : ℚ
  x : ℚ
  y : ℚ
  width : ℚ
  height : ℚ
deriving DecidableEq, Repr

/-- Python `int()` on a real: truncation toward zero (used at lines
109-110 for box corners and at lines 157-159 for the summary). -/
def pyInt (q : ℚ) : ℤ := if q < 0 then ⌈q⌉ else ⌊q⌋

/-- Lines 101-104: the list comprehension keeping the predictions with
`p["confidence"] >= seuil_confiance`, in their original order. -/
def predictions_filtered (preds : List Prediction) (seuil_confiance : ℚ) :
    List Prediction :=
  preds.filter fun p => decide (seuil_confiance ≤ p.confidence)

/-- An integer pixel coordinate pair. -/
abbrev Pt := ℤ × ℤ

/-- An RGB colour triple (the image was converted to RGB at line 98). -/
abbrev Color := ℕ × ℕ × ℕ

/-- One cv2 drawing call on the image buffer: a rectangle between two
corners (thickness -1 draws it filled, line 126) or text put at a baseline
origin with a font scale and stroke thickness. -/
inductive DrawOp where
  | rectangle (corner1 corner2 : Pt) (color : Color) (thickness : ℤ)
  | putText (text : String) (org : Pt) (fontScale : ℚ) (color : Color) (thickness : ℕ)
deriving DecidableEq, Repr

/-- `cv2.getTextSize` (line 118), an external measurement: text, font
scale and stroke thickness to a pixel (width, height) pair.  The font is
the one fixed constant `FONT_HERSHEY_SIMPLEX`, so it is left implicit. -/
def TextSizeFn : Type := String → ℚ → ℕ → ℕ × ℕ

/-- Two decimal digits with a leading zero, for the fraction part of a
fixed-point rendering. -/
def pad2 (n : ℕ) : String := if n < 10 then "0" ++ toString n else toString n

/-- Python format spec `.2f` on a rational: the value rounded to two
decimal places (ties follow `round`, half away from zero upward) and
printed with exactly two fraction digits. -/
def fmtFixed2 (q : ℚ) : String :=
  let n : ℤ := round (q * 100)
  (if n < 0 then "-" else "") ++ toString (n.natAbs / 100) ++ "." ++ pad2 (n.natAbs % 100)

/-- Python format spec `.1%` on a rational: the value as a percentage with
one fraction digit and a trailing percent sign (lines 149 and 155). -/
def fmtPct1 (q : ℚ) : String :=
  let n : ℤ := round (q * 1000)
  (if n < 0 then "-" else "") ++ toString (n.natAbs / 10) ++ "." ++ toString (n.natAbs % 10) ++ "%"

/-- Line 112: the overlay label, class then a blank then the confidence
with two decimal places. -/
def label_text (pred : Prediction) : String :=
  pred.class_label ++ " " ++ fmtFixed2 pred.confidence

/-- The integer box corners derived at lines 109-110. -/
structure BoundingBox where
  x1 : ℤ
  y1 : ℤ
  x2 : ℤ
  y2 : ℤ
deriving DecidableEq, Repr

/-- Lines 109-110: `x1, y1 = int(x - width/2), int(y - height/2)` and
`x2, y2 = int(x + width/2), int(y + height/2)`. -/
def bbox (pred : Prediction) : BoundingBox :=
  { x1 := pyInt (pred.x - pred.width / 2)
    y1 := pyInt (pred.y - pred.height / 2)
    x2 := pyInt (pred.x + pred.width / 2)
    y2 := pyInt (pred.y + pred.height / 2) }

/-- Lines 107-133, one loop iteration: the three cv2 calls made for one
prediction, in order: the red box outline of thickness 3 (line 115), the
filled red label background (lines 121-127), the white label text at
baseline `(x1, y1 - 5)` with the same scale 0.6 and thickness 2 that were
passed to `cv2.getTextSize` (lines 130-133). -/
def draw_pred (ts : TextSizeFn) (pred : Prediction) : List DrawOp :=
  let b := bbox pred
  let label := label_text pred
  let wh := ts label (3 / 5) 2
  [ DrawOp.rectangle (b.x1, b.y1) (b.x2, b.y2) (255, 0, 0) 3,
    DrawOp.rectangle (b.x1, b.y1 - (wh.2 : ℤ) - 10) (b.x1 + (wh.1 : ℤ), b.y1) (255, 0, 0) (-1),
    DrawOp.putText label (b.x1, b.y1 - 5) (3 / 5) (255, 255, 255) 2 ]

/-- The raster image: its opaque pixel content of type `α` as loaded, plus
the drawing calls applied to its buffer since, in order. -/
structure Image (α : Type) where
  base : α
  ops : List DrawOp
deriving DecidableEq, Repr

/-- Lines 107-133: the whole draw loop.  The in-place mutation of
`img_rgb` is modelled by folding each iteration's appended drawing calls
over the image. -/
def render {α : Type} (ts : TextSizeFn) (img : Image α) (preds : List Prediction) : Image α :=
  preds.foldl (fun acc pred => { acc with ops := acc.ops ++ draw_pred ts pred }) img

/-- The drawing calls the loop emits for a prediction list, in order. -/
def drawn_ops (ts : TextSizeFn) : List Prediction → List DrawOp
  | [] => []
  | pred :: rest => draw_pred ts pred ++ drawn_ops ts rest

/-- Whether a drawing call is a box outline: a rectangle of stroke
thickness 3, as only line 115 draws one. -/
def isBoxRect : DrawOp → Bool
  | DrawOp.rectangle _ _ _ t => t == 3
  | _ => false

/-- How many box outlines a list of drawing calls contains. -/
def box_rect_count (ops : List DrawOp) : ℕ := (ops.filter isBoxRect).length

/-- Line 142: the count shown in the results header,
`len(predictions_filtered)`. -/
def results_count (filtered : List Prediction) : ℕ := filtered.length

/-- One row of the detection summary (lines 146-159): the 1-based index,
the class label, the confidence as a percentage string with one decimal
(line 155), the `int(width)`-by-`int(height)` dimension string (line 157)
and the `(int(x), int(y))` position (line 159). -/
structure SummaryEntry where
  index : ℕ
  class_label : String
  confidence_pct : String
  dimensions : String
  position : ℤ × ℤ
deriving DecidableEq, Repr

/-- The summary row built for the prediction at 1-based index `i`. -/
def summary_entry (i : ℕ) (pred : Prediction) : SummaryEntry :=
  { index := i
    class_label := pred.class_label
    confidence_pct := fmtPct1 pred.confidence
    dimensions := toString (pyInt pred.width) ++ "×" ++ toString (pyInt pred.height) ++ " px"
    position := (pyInt pred.x, pyInt pred.y) }

/-- Lines 144-159: `enumerate(predictions_filtered, 1)` turned into
summary rows; the empty list yields the empty report (the `else` branch at
lines 160-162 only shows a notice). -/
def summarize (preds : List Prediction) : List SummaryEntry :=
  (List.enumFrom 1 preds).map fun ip => summary_entry ip.1 ip.2

/-- The §4.3 spec sentence for the dimension string taken at its word:
width and height each rounded to the nearest integer rather than
truncated.  Stated only to compare with `summary_entry`, which embeds the
`int(width)`/`int(height)` of line 157. -/
def dimensions_rounded (pred : Prediction) : String :=
  toString (round pred.width) ++ "×" ++ toString (round pred.height) ++ " px"

/-- A raw prediction record as deserialised from the JSON response: every
field may be absent. -/
structure RawPrediction where
  class_label : Option String
  confidence : Option ℚ
  x : Option ℚ
  y : Option ℚ
  width : Option ℚ
  height : Option ℚ
deriving DecidableEq, Repr

/-- The failures that can surface inside the try block of lines 92-166:
a Python `KeyError` from a subscript on a record missing that key, or a
failure of the external inference call itself.  `malformedPredictionError`
is the error class §7 of the spec names; it is part of the taxonomy only
for comparison, since no statement of `src/app.py` raises or defines it
(the code uses one generic catch-all, as §9 of the spec notes). -/
inductive PyError where
  | keyError (key : String)
  | inferenceError (msg : String)
  | malformedPredictionError
deriving DecidableEq, Repr

/-- Python dict subscript `p[key]`: the value when present, a `KeyError`
naming the key when absent. -/
def getItem {β : Type} (key : String) : Option β → Except PyError β
  | some v => Except.ok v
  | none => Except.error (PyError.keyError key)

/-- Lines 101-104 over raw records: the comprehension reads
`p["confidence"]` on every element, so the first record missing it raises
`KeyError` and the whole filter fails. -/
def predictions_filtered_raw (preds : List RawPrediction) (seuil_confiance : ℚ) :
    Except PyError (List RawPrediction) :=
  match preds with
  | [] => Except.ok []
  | p :: rest => do
      let c ← getItem "confidence" p.confidence
      let tail ← predictions_filtered_raw rest seuil_confiance
      if seuil_confiance ≤ c then pure (p :: tail) else pure tail

/-- Lines 108 and 112: the field reads the draw loop makes on each
filtered record, in source order (`x`, `y`, `width`, `height`, then
`class` and `confidence` for the label); the first missing field raises
`KeyError` and the render fails as a whole. -/
def read_preds : List RawPrediction → Except PyError (List Prediction)
  | [] => Except.ok []
  | p :: rest => do
      let x ← getItem "x" p.x
      let y ← getItem "y" p.y
      let w ← getItem "width" p.width
      let h ← getItem "height" p.height
      let cls ← getItem "class" p.class_label
      let c ← getItem "confidence" p.confidence
      let tail ← read_preds rest
      pure ({ class_label := cls, confidence := c, x := x, y := y,
              width := w, height := h } :: tail)

/-- Lines 92-166, the pipeline inside the try block: take the inference
result (itself possibly a failure of the external call), filter, read the
fields the draw and summary loops use, then produce what the interaction
displays: the annotated image, the results-header count and the summary
rows.  Nothing is displayed unless every step succeeded. -/
def pipeline {α : Type} (ts : TextSizeFn) (img : Image α)
    (infer_result : Except PyError (List RawPrediction)) (seuil_confiance : ℚ) :
    Except PyError (Image α × ℕ × List SummaryEntry) := do
  let raw ← infer_result
  let filtered_raw ← predictions_filtered_raw raw seuil_confiance
  let preds ← read_preds filtered_raw
  pure (render ts img preds, results_count preds, summarize preds)

/-- What one interaction leaves behind: the displayed outputs when the
pipeline succeeded, the reported error when it failed, and whether the
temporary file was released. -/
structure InteractionResult (α : Type) where
  displayed : Option (Image α × ℕ × List SummaryEntry)
  error_message : Option PyError
  tmp_released : Bool
deriving DecidableEq, Repr

/-- Lines 92-175: the try/except/finally interaction boundary.  A pipeline
failure is caught by the generic `except Exception` (lines 168-170) and
shown as an error message; the finally block (lines 172-175) releases the
temporary file on both paths.  The function is total: no failure escapes
the interaction. -/
def run_interaction {α : Type} (ts : TextSizeFn) (img : Image α)
    (infer_result : Except PyError (List RawPrediction)) (seuil_confiance : ℚ) :
    InteractionResult α :=
  match pipeline ts img infer_result seuil_confiance with
  | Except.ok out => { displayed := some out, error_message := none, tmp_released := true }
  | Except.error e => { displayed := none, error_message := some e, tmp_released := true }

/-- The render step in state-passing form: the draw loop updates the image
buffer and leaves the filtered prediction list untouched (lines 107-133
only read `pred`). -/
def render_step {α : Type} (ts : TextSizeFn) (s : Image α × List Prediction) :
    Image α × List Prediction :=
  (render ts s.1 s.2, s.2)

/-- The prediction of spec scenarios 1 and 2: class `ink`, confidence 0.9,
center (100, 100), width 40, height 20. -/
def pInk : Prediction :=
  { class_label := "ink", confidence := 9 / 10, x := 100, y := 100, width := 40, height := 20 }

/-- A prediction whose width 10.6 separates truncation toward zero (10)
from rounding to the nearest integer (11). -/
def pWide : Prediction :=
  { class_label := "ink", confidence := 1 / 2, x := 100, y := 100, width := 53 / 5, height := 20 }

/-- A raw response record missing its `confidence` field (spec
scenario 5). -/
def rawNoConf : RawPrediction :=
  { class_label := some "ink", confidence := none, x := some 100, y := some 100,
    width := some 40, height := some 20 }

/-- A concrete text-measurement function for closed instances: every label
measures 92 by 11 pixels. -/
def ts0 : TextSizeFn := fun _ _ _ => (92, 11)

/-- On a nonnegative rational, Python `int()` is the floor. -/
theorem pyInt_of_nonneg {q : ℚ} (h : 0 ≤ q) : pyInt q = ⌊q⌋ := by
  rw [pyInt, if_neg (not_lt.mpr h)]

/-- On a nonpositive rational, Python `int()` is the ceiling. -/
theorem pyInt_of_nonpos {q : ℚ} (h : q ≤ 0) : pyInt q = ⌈q⌉ := by
  rcases lt_or_eq_of_le h with h' | h'
  · rw [pyInt, if_pos h']
  · subst h'
    rw [pyInt, if_neg (lt_irrefl 0), Int.floor_zero, Int.ceil_zero]

/-- Python `int()` fixes the integers. -/
theorem pyInt_intCast (z : ℤ) : pyInt (z : ℚ) = z := by
  rcases le_or_lt 0 (z : ℚ) with h | h
  · rw [pyInt_of_nonneg h, Int.floor_intCast]
  · rw [pyInt_of_nonpos h.le, Int.ceil_intCast]

/-- Python `int()` of a rational equal to an integer is that integer. -/
theorem pyInt_eq_intCast {q : ℚ} {z : ℤ} (h : q = (z : ℚ)) : pyInt q = z := by
  rw [h, pyInt_intCast]

/-- Truncation never grows the magnitude. -/
theorem abs_pyInt_le (q : ℚ) : |(pyInt q : ℚ)| ≤ |q| := by
  rcases le_or_lt 0 q with h | h
  · have hf : (0 : ℚ) ≤ (⌊q⌋ : ℚ) := by
      exact_mod_cast Int.le_floor.mpr (by exact_mod_cast h)
    rw [pyInt_of_nonneg h, abs_of_nonneg h, abs_of_nonneg hf]
    exact Int.floor_le q
  · have hc : (⌈q⌉ : ℚ) ≤ 0 := by
      exact_mod_cast Int.ceil_le.mpr (by exact_mod_cast h.le)
    rw [pyInt_of_nonpos h.le, abs_of_nonpos h.le, abs_of_nonpos hc]
    have := Int.le_ceil q
    linarith

/-- Truncation shrinks the magnitude by less than one. -/
theorem abs_lt_abs_pyInt_add_one (q : ℚ) : |q| < |(pyInt q : ℚ)| + 1 := by
  rcases le_or_lt 0 q with h | h
  · have hf : (0 : ℚ) ≤ (⌊q⌋ : ℚ) := by
      exact_mod_cast Int.le_floor.mpr (by exact_mod_cast h)
    rw [pyInt_of_nonneg h, abs_of_nonneg h, abs_of_nonneg hf]
    exact Int.lt_floor_add_one q
  · have hc : (⌈q⌉ : ℚ) ≤ 0 := by
      exact_mod_cast Int.ceil_le.mpr (by exact_mod_cast h.le)
    rw [pyInt_of_nonpos h.le, abs_of_nonpos h.le, abs_of_nonpos hc]
    have := Int.ceil_lt_add_one q
    linarith

/-- The draw loop appends exactly the per-prediction drawing calls, in
order, to whatever the buffer already held. -/
theorem render_eq_drawn_ops {α : Type} (ts : TextSizeFn) (img : Image α)
    (preds : List Prediction) :
    render ts img preds = { img with ops := img.ops ++ drawn_ops ts preds } := by
  induction preds generalizing img with
  | nil => simp [render, drawn_ops]
  | cons p rest ih =>
      have hstep : render ts img (p :: rest) =
          render ts { img with ops := img.ops ++ draw_pred ts p } rest := rfl
      rw [hstep, ih]
      simp [drawn_ops]

/-- The summary has one row per prediction. -/
theorem summarize_length (preds : List Prediction) :
    (summarize preds).length = preds.length := by
  simp [summarize, List.enumFrom_length]

/-- Box-outline counting distributes over concatenation. -/
theorem box_rect_count_append (a b : List DrawOp) :
    box_rect_count (a ++ b) = box_rect_count a + box_rect_count b := by
  simp [box_rect_count, List.filter_append]

/-- Each prediction's three drawing calls contain exactly one box
outline. -/
theorem box_rect_count_draw_pred (ts : TextSizeFn) (pred : Prediction) :
    box_rect_count (draw_pred ts pred) = 1 := rfl

/-- The draw loop emits exactly one box outline per prediction. -/
theorem box_rect_count_drawn_ops (ts : TextSizeFn) (preds : List Prediction) :
    box_rect_count (drawn_ops ts preds) = preds.length := by
  induction preds with
  | nil => rfl
  | cons p rest ih =>
      rw [drawn_ops, box_rect_count_append, box_rect_count_draw_pred, ih,
        List.length_cons, Nat.add_comm]

/-- Claim C1: for every prediction list and threshold, the filter returns
the stable subsequence of exactly those predictions with confidence at
least the threshold, its length is at most the input's, the empty input
yields the empty output, and when every confidence lies in [0, 1],
threshold 0 passes everything and threshold 1 passes exactly the
predictions with confidence exactly 1. -/
theorem predictions_filtered_spec (preds : List Prediction) (t : ℚ)
    (hconf : ∀ p ∈ preds, 0 ≤ p.confidence ∧ p.confidence ≤ 1) :
    (predictions_filtered preds t).Sublist preds
    ∧ (∀ p, p ∈ predictions_filtered preds t ↔ p ∈ preds ∧ t ≤ p.confidence)
    ∧ (predictions_filtered preds t).length ≤ preds.length
    ∧ predictions_filtered [] t = []
    ∧ predictions_filtered preds 0 = preds
    ∧ predictions_filtered preds 1 = preds.filter fun p => decide (p.confidence = 1) := by
  refine ⟨List.filter_sublist _, ?_, List.length_filter_le _ _, rfl, ?_, ?_⟩
  · intro p
    simp [predictions_filtered, List.mem_filter]
  · rw [predictions_filtered]
    refine List.filter_eq_self.mpr fun p hp => ?_
    simpa using (hconf p hp).1
  · rw [predictions_filtered]
    refine List.filter_congr fun p hp => ?_
    rw [decide_eq_decide]
    exact ⟨fun h1 => le_antisymm (hconf p hp).2 h1, fun h1 => h1.ge⟩

/-- Witness for C1 at the scenario-1 prediction and threshold 0.39. -/
theorem predictions_filtered_spec_witness :
    (predictions_filtered [pInk] (39 / 100)).length ≤ 1 :=
  (predictions_filtered_spec [pInk] (39 / 100) (by
    intro p hp
    rw [List.mem_singleton] at hp
    subst hp
    constructor <;> norm_num [pInk])).2.2.1

/-- Claim C8: filtering is antitone in the threshold (the higher-threshold
result is an ordered subsequence of the lower-threshold one) and
idempotent at a fixed threshold. -/
theorem filter_threshold_antitone_idem (preds : List Prediction) (t t1 t2 : ℚ) :
    (t1 ≤ t2 → (predictions_filtered preds t2).Sublist (predictions_filtered preds t1))
    ∧ predictions_filtered (predictions_filtered preds t) t = predictions_filtered preds t := by
  constructor
  · intro h12
    refine List.monotone_filter_right _ fun p hp => ?_
    simp only [decide_eq_true_eq] at hp ⊢
    exact le_trans h12 hp
  · simp only [predictions_filtered]
    rw [List.filter_filter]
    exact List.filter_congr fun p _ => Bool.and_self _

/-- At threshold 0.39 the scenario-1 prediction passes the filter. -/
theorem filter_pInk_pass : predictions_filtered [pInk] (39 / 100) = [pInk] := by
  have hp : decide ((39 : ℚ) / 100 ≤ pInk.confidence) = true := by
    simp only [decide_eq_true_eq, pInk]
    norm_num
  rw [predictions_filtered,
    List.filter_cons_of_pos (p := fun p : Prediction => decide ((39 : ℚ) / 100 ≤ p.confidence)) hp,
    List.filter_nil]

/-- At threshold 0.95 the scenario-2 prediction is filtered out. -/
theorem filter_pInk_fail : predictions_filtered [pInk] (95 / 100) = [] := by
  have hp : ¬decide ((95 : ℚ) / 100 ≤ pInk.confidence) = true := by
    simp only [decide_eq_true_eq, pInk]
    norm_num
  rw [predictions_filtered,
    List.filter_cons_of_neg (p := fun p : Prediction => decide ((95 : ℚ) / 100 ≤ p.confidence)) hp,
    List.filter_nil]

/-- The scenario-1 box corners: (80, 90) and (120, 110). -/
theorem bbox_pInk : bbox pInk = { x1 := 80, y1 := 90, x2 := 120, y2 := 110 } := by
  rw [bbox]
  rw [pyInt_eq_intCast (z := 80) (by norm_num [pInk]),
    pyInt_eq_intCast (z := 90) (by norm_num [pInk]),
    pyInt_eq_intCast (z := 120) (by norm_num [pInk]),
    pyInt_eq_intCast (z := 110) (by norm_num [pInk])]

/-- Among one prediction's drawing calls, the only box outline is the red
one between its two box corners. -/
theorem draw_pred_filter_box (ts : TextSizeFn) (pred : Prediction) :
    (draw_pred ts pred).filter isBoxRect =
      [DrawOp.rectangle ((bbox pred).x1, (bbox pred).y1)
        ((bbox pred).x2, (bbox pred).y2) (255, 0, 0) 3] := rfl

/-- Claim C2: the renderer derives the corners as the center offset by
half the size, truncated toward zero (floor on nonnegatives, ceiling on
nonpositives, magnitude shrunk by less than one); on the scenario-1
prediction at threshold 0.39 exactly one red box outline is drawn, from
(80, 90) to (120, 110). -/
theorem bbox_spec :
    (∀ pred : Prediction, bbox pred =
      { x1 := pyInt (pred.x - pred.width / 2), y1 := pyInt (pred.y - pred.height / 2),
        x2 := pyInt (pred.x + pred.width / 2), y2 := pyInt (pred.y + pred.height / 2) })
    ∧ (∀ q : ℚ, 0 ≤ q → pyInt q = ⌊q⌋)
    ∧ (∀ q : ℚ, q ≤ 0 → pyInt q = ⌈q⌉)
    ∧ (∀ q : ℚ, |(pyInt q : ℚ)| ≤ |q| ∧ |q| < |(pyInt q : ℚ)| + 1)
    ∧ predictions_filtered [pInk] (39 / 100) = [pInk]
    ∧ bbox pInk = { x1 := 80, y1 := 90, x2 := 120, y2 := 110 }
    ∧ (∀ ts : TextSizeFn,
        (drawn_ops ts (predictions_filtered [pInk] (39 / 100))).filter isBoxRect
          = [DrawOp.rectangle (80, 90) (120, 110) (255, 0, 0) 3]) := by
  refine ⟨fun pred => rfl, fun q h => pyInt_of_nonneg h, fun q h => pyInt_of_nonpos h,
    fun q => ⟨abs_pyInt_le q, abs_lt_abs_pyInt_add_one q⟩, filter_pInk_pass, bbox_pInk, ?_⟩
  intro ts
  rw [filter_pInk_pass]
  rw [show drawn_ops ts [pInk] = draw_pred ts pInk ++ [] from rfl, List.append_nil]
  rw [draw_pred_filter_box, bbox_pInk]

/-- The confidence 0.9 prints as 0.90 with two decimal places. -/
theorem fmtFixed2_ink : fmtFixed2 (9 / 10) = "0.90" := by
  have h : round ((9 : ℚ) / 10 * 100) = 90 := by norm_num [round_eq]
  simp only [fmtFixed2, h]
  rfl

/-- The scenario-1 overlay label. -/
theorem label_text_pInk : label_text pInk = "ink 0.90" := by
  rw [label_text, show pInk.confidence = 9 / 10 from rfl, fmtFixed2_ink]
  rfl

/-- Claim C4: the label text is the class label, a blank and the
confidence with two decimal places; the filled label background spans
from (x1, y1 - text height - 10) to (x1 + text width, y1) in the same red
as the box outline; and the label text is white with baseline
(x1, y1 - 5) at the same scale 0.6 and stroke 2 as the measurement. -/
theorem draw_pred_label_spec (ts : TextSizeFn) (pred : Prediction) :
    label_text pred = pred.class_label ++ " " ++ fmtFixed2 pred.confidence
    ∧ draw_pred ts pred =
      [ DrawOp.rectangle ((bbox pred).x1, (bbox pred).y1)
          ((bbox pred).x2, (bbox pred).y2) (255, 0, 0) 3,
        DrawOp.rectangle
          ((bbox pred).x1, (bbox pred).y1 - ((ts (label_text pred) (3 / 5) 2).2 : ℤ) - 10)
          ((bbox pred).x1 + ((ts (label_text pred) (3 / 5) 2).1 : ℤ), (bbox pred).y1)
          (255, 0, 0) (-1),
        DrawOp.putText (label_text pred) ((bbox pred).x1, (bbox pred).y1 - 5)
          (3 / 5) (255, 255, 255) 2 ]
    ∧ fmtFixed2 (9 / 10) = "0.90"
    ∧ label_text pInk = "ink 0.90" :=
  ⟨rfl, rfl, fmtFixed2_ink, label_text_pInk⟩

/-- Claim C7: on an empty filtered list the renderer returns the image
unmodified and the report is empty; in particular the scenario-2
prediction at threshold 0.95 is filtered out, leaving the original image,
an empty report and a zero count. -/
theorem empty_render_spec {α : Type} (ts : TextSizeFn) (img : Image α) :
    render ts img [] = img
    ∧ summarize [] = []
    ∧ predictions_filtered [pInk] (95 / 100) = []
    ∧ render ts img (predictions_filtered [pInk] (95 / 100)) = img
    ∧ summarize (predictions_filtered [pInk] (95 / 100)) = []
    ∧ results_count (predictions_filtered [pInk] (95 / 100)) = 0 := by
  refine ⟨rfl, rfl, filter_pInk_fail, ?_, ?_, ?_⟩ <;> rw [filter_pInk_fail] <;> rfl

/-- Counterexample to C3 as stated: at width 10.6 the summarizer's
dimension string uses the truncated value 10 (from `int(width)` at line
157), while rounding to the nearest integer, as the claim words it, gives
11. -/
theorem summary_dims_counterexample :
    (summarize [pWide]).map SummaryEntry.dimensions = ["10×20 px"]
    ∧ dimensions_rounded pWide = "11×20 px"
    ∧ ("10×20 px" : String) ≠ "11×20 px" := by
  refine ⟨?_, ?_, by decide⟩
  · have hw : pyInt pWide.width = 10 := by
      rw [show pWide.width = (53 : ℚ) / 5 from rfl, pyInt_of_nonneg (by norm_num)]
      norm_num
    have hh : pyInt pWide.height = 20 := pyInt_eq_intCast (by norm_num [pWide])
    simp only [summarize, List.enumFrom, List.map, summary_entry, hw, hh]
    rfl
  · have hw : round pWide.width = 11 := by
      rw [show pWide.width = (53 : ℚ) / 5 from rfl]
      norm_num [round_eq]
    have hh : round pWide.height = 20 := by
      rw [show pWide.height = (20 : ℚ) from rfl]
      norm_num [round_eq]
    rw [dimensions_rounded, hw, hh]
    rfl

/-- Claim C3 (amended): the summarizer produces one row per prediction in
input order, pairing the 1-based index with the class label, the
confidence as a percentage string with one decimal place, the
width-by-height string with dimensions truncated toward zero, and the
truncated-toward-zero (x, y) center; an empty input yields an empty
report.  (The claim said integer-rounded dimensions and position; line
157/159's `int()` truncates toward zero, see the counterexample.) -/
theorem summarize_spec (preds : List Prediction) (i : ℕ) (h : i < preds.length) :
    summarize ([] : List Prediction) = []
    ∧ (summarize preds).length = preds.length
    ∧ (summarize preds).get ⟨i, (summarize_length preds).symm ▸ h⟩ =
      { index := i + 1
        class_label := (preds.get ⟨i, h⟩).class_label
        confidence_pct := fmtPct1 (preds.get ⟨i, h⟩).confidence
        dimensions := toString (pyInt (preds.get ⟨i, h⟩).width) ++ "×" ++
          toString (pyInt (preds.get ⟨i, h⟩).height) ++ " px"
        position := (pyInt (preds.get ⟨i, h⟩).x, pyInt (preds.get ⟨i, h⟩).y) } := by
  refine ⟨rfl, summarize_length preds, ?_⟩
  simp only [summarize, List.get_eq_getElem, List.getElem_map, List.getElem_enumFrom,
    summary_entry, Nat.add_comm 1 i]

/-- Witness for C3 at the scenario-1 prediction. -/
theorem summarize_spec_witness : (summarize [pInk]).length = 1 :=
  (summarize_spec [pInk] 0 (by simp)).2.1

/-- Claim C9: rendering is deterministic (equal image and equal filtered
list give identical output) and, in state-passing form, the draw loop
leaves the filtered prediction list itself untouched in count and
values. -/
theorem render_deterministic_spec {α : Type} (ts : TextSizeFn) (img1 img2 : Image α)
    (ps1 ps2 : List Prediction) (himg : img1 = img2) (hps : ps1 = ps2) :
    render ts img1 ps1 = render ts img2 ps2
    ∧ render_step ts (img1, ps1) = (render ts img1 ps1, ps1)
    ∧ (render_step ts (img1, ps1)).2 = ps1
    ∧ (render_step ts (img1, ps1)).2.length = ps1.length := by
  subst himg
  subst hps
  exact ⟨rfl, rfl, rfl, rfl⟩

/-- Witness for C9 at a concrete image and prediction list. -/
theorem render_deterministic_spec_witness :
    render ts0 (⟨0, []⟩ : Image ℕ) [pInk] = render ts0 (⟨0, []⟩ : Image ℕ) [pInk] :=
  (render_deterministic_spec ts0 ⟨0, []⟩ ⟨0, []⟩ [pInk] [pInk] rfl rfl).1

/-- Claim C10: the results-header count, the number of box outlines the
renderer adds, and the number of summary rows are all the length of the
same filtered list. -/
theorem counts_agree_spec {α : Type} (ts : TextSizeFn) (img : Image α)
    (preds : List Prediction) (t : ℚ) :
    results_count (predictions_filtered preds t) = (predictions_filtered preds t).length
    ∧ box_rect_count (render ts img (predictions_filtered preds t)).ops
        = box_rect_count img.ops + (predictions_filtered preds t).length
    ∧ (summarize (predictions_filtered preds t)).length
        = (predictions_filtered preds t).length := by
  refine ⟨rfl, ?_, summarize_length _⟩
  rw [render_eq_drawn_ops]
  rw [show ({ img with ops := img.ops ++ drawn_ops ts (predictions_filtered preds t) } :
    Image α).ops = img.ops ++ drawn_ops ts (predictions_filtered preds t) from rfl]
  rw [box_rect_count_append, box_rect_count_drawn_ops]

/-- Counterexample to C5 as stated: on a response whose prediction record
misses `confidence`, the interaction reports the generic runtime
`KeyError` raised by `p["confidence"]` at line 103 and caught by the
catch-all at line 168, not a `MalformedPredictionError`; no annotated
image is displayed. -/
theorem missing_confidence_counterexample :
    run_interaction ts0 (⟨0, []⟩ : Image ℕ) (Except.ok [rawNoConf]) (39 / 100) =
      { displayed := none, error_message := some (PyError.keyError "confidence"),
        tmp_released := true }
    ∧ PyError.keyError "confidence" ≠ PyError.malformedPredictionError := by
  exact ⟨rfl, by decide⟩

/-- Claim C5 (amended): for every response in which some prediction record
misses the `confidence` field, the filter raises the generic runtime
`KeyError "confidence"`, the interaction reports that error, and no
annotated image is rendered — the whole render fails.  (The claim named a
`MalformedPredictionError`; the code defines no such error and reports the
key error through its catch-all, see the counterexample.) -/
theorem missing_confidence_spec {α : Type} (ts : TextSizeFn) (img : Image α)
    (raw : List RawPrediction) (seuil : ℚ)
    (h : ∃ p ∈ raw, p.confidence = none) :
    predictions_filtered_raw raw seuil = Except.error (PyError.keyError "confidence")
    ∧ run_interaction ts img (Except.ok raw) seuil =
        { displayed := none, error_message := some (PyError.keyError "confidence"),
          tmp_released := true }
    ∧ (run_interaction ts img (Except.ok raw) seuil).displayed = none := by
  have hfail : predictions_filtered_raw raw seuil =
      Except.error (PyError.keyError "confidence") := by
    induction raw with
    | nil =>
        rcases h with ⟨p, hp, _⟩
        cases hp
    | cons q rest ih =>
        rcases h with ⟨p, hp, hnone⟩
        rcases List.mem_cons.mp hp with rfl | hmem
        · rw [predictions_filtered_raw, hnone]
          rfl
        · cases hq : q.confidence with
          | none =>
              rw [predictions_filtered_raw, hq]
              rfl
          | some c =>
              have htail := ih ⟨p, hmem, hnone⟩
              rw [predictions_filtered_raw, hq]
              rw [show getItem "confidence" (some c) = Except.ok c from rfl]
              rw [show (Except.ok c >>= fun c =>
                  predictions_filtered_raw rest seuil >>= fun tail =>
                    if seuil ≤ c then pure (q :: tail) else pure tail :
                  Except PyError (List RawPrediction)) =
                  (predictions_filtered_raw rest seuil >>= fun tail =>
                    if seuil ≤ c then pure (q :: tail) else pure tail) from rfl]
              rw [htail]
              rfl
  have hpipe : pipeline ts img (Except.ok raw) seuil =
      Except.error (PyError.keyError "confidence") := by
    have hstep : pipeline ts img (Except.ok raw) seuil =
        (predictions_filtered_raw raw seuil >>= fun filtered_raw =>
          read_preds filtered_raw >>= fun preds =>
            pure (render ts img preds, results_count preds, summarize preds)) := rfl
    rw [hstep, hfail]
    rfl
  have hrun : run_interaction ts img (Except.ok raw) seuil =
      { displayed := none, error_message := some (PyError.keyError "confidence"),
        tmp_released := true } := by
    rw [run_interaction, hpipe]
  exact ⟨hfail, hrun, by rw [hrun]⟩

/-- Witness for C5 at a singleton response missing `confidence`. -/
theorem missing_confidence_spec_witness :
    predictions_filtered_raw [rawNoConf] (39 / 100) =
      Except.error (PyError.keyError "confidence") :=
  (missing_confidence_spec ts0 (⟨0, []⟩ : Image ℕ) [rawNoConf] (39 / 100)
    ⟨rawNoConf, List.mem_singleton.mpr rfl, rfl⟩).1

/-- Claim C6: every pipeline failure is caught at the interaction boundary
and reported (the interaction is a total function, so the process keeps
running), nothing is displayed on failure, everything is displayed on
success, and the temporary file is released on both paths alike. -/
theorem interaction_boundary_spec {α : Type} (ts : TextSizeFn) (img : Image α)
    (infer_result : Except PyError (List RawPrediction)) (seuil : ℚ) :
    (run_interaction ts img infer_result seuil).tmp_released = true
    ∧ (∀ e, pipeline ts img infer_result seuil = Except.error e →
        run_interaction ts img infer_result seuil =
          { displayed := none, error_message := some e, tmp_released := true })
    ∧ (∀ out, pipeline ts img infer_result seuil = Except.ok out →
        run_interaction ts img infer_result seuil =
          { displayed := some out, error_message := none, tmp_released := true }) := by
  cases hp : pipeline ts img infer_result seuil with
  | ok out =>
      have hr : run_interaction ts img infer_result seuil =
          { displayed := some out, error_message := none, tmp_released := true } := by
        rw [run_interaction, hp]
      refine ⟨by rw [hr], fun e he => ?_, fun out2 ho => ?_⟩
      · cases he
      · cases ho
        rw [hr]
  | error e =>
      have hr : run_interaction ts img infer_result seuil =
          { displayed := none, error_message := some e, tmp_released := true } := by
        rw [run_interaction, hp]
      refine ⟨by rw [hr], fun e2 he => ?_, fun out2 ho => ?_⟩
      · cases he
        rw [hr]
      · cases ho

end App
